import Mathlib

/-!
# Verification of the conn2res-func evaluation pipeline and sweep orchestrator

Shallow embedding of `src/conn2res/task.py` and `src/examples/example1_sims.py`.
Arrays are modelled by their shape, dtype tag and (flattened) rational data;
the external estimator (scikit-learn Ridge / RidgeClassifier), the metric
registry (the `performance` module) and the network / reservoir collaborators
are abstracted as function parameters, exactly as the spec declares them
external collaborators.  Effects (model construction, fitting, scoring,
registry lookup, prediction) are recorded in an explicit event trace so that
interaction claims ("fit exactly once", "without consulting the registry")
become provable statements.  Fallible Python code (AttributeError from
`getattr`, TypeError from calling `None`, NameError from an unbound local)
is embedded with `Except`.
-/

namespace Conn2Res

/-- NumPy dtype tags relevant to `select_model`: the four dtypes the source
inspects, plus representatives of the other floating (`float16`), integer
(`int8`, `int16`, `uint8`) and non-numeric-kind (`bool_`, `complex64`)
dtypes a target array may carry. -/
inductive DType
  | float16
  | float32
  | float64
  | int8
  | int16
  | int32
  | int64
  | uint8
  | bool_
  | complex64
deriving DecidableEq, Repr

/-- NumPy's floating kind (`np.issubdtype(t, np.floating)`). -/
def DType.isFloating : DType → Bool
  | .float16 => true
  | .float32 => true
  | .float64 => true
  | _ => false

/-- NumPy's integer kind (`np.issubdtype(t, np.integer)`); note `bool_` is
not an integer dtype in NumPy. -/
def DType.isInteger : DType → Bool
  | .int8 => true
  | .int16 => true
  | .int32 => true
  | .int64 => true
  | .uint8 => true
  | _ => false

/-- A NumPy ndarray, modelled by its shape, dtype tag and flattened data
(rationals model both exact integer and exact decimal float contents). -/
structure NDArray where
  shape : List ℕ
  dtype : DType
  data : List ℚ
deriving DecidableEq, Repr

/-- NumPy `a.ndim`. -/
def NDArray.ndim (a : NDArray) : ℕ := a.shape.length

/-- NumPy `a.squeeze()`: removes every axis of size 1. -/
def NDArray.squeeze (a : NDArray) : NDArray :=
  NDArray.mk (a.shape.filter (fun s => s ≠ 1)) a.dtype a.data

/-- NumPy `a[:, np.newaxis]` applied to a 1-D array: appends a trailing axis of
size 1. -/
def NDArray.addTrailingAxis (a : NDArray) : NDArray :=
  NDArray.mk (a.shape ++ [1]) a.dtype a.data

/-- NumPy `len(np.unique(a))`: the number of distinct values in the array. -/
def np_unique_len (a : NDArray) : ℕ := a.data.dedup.length

/-- Function `check_xy_dims(x, y)` from `src/conn2res/task.py` lines 19-37: if both
state arrays are 1-D each gains a trailing feature axis; if both are more
than 2-D each is squeezed; otherwise they pass through unchanged.  The
target arrays are always squeezed.  The source contains no error path. -/
def check_xy_dims (x y : NDArray × NDArray) :
    NDArray × NDArray × NDArray × NDArray :=
  let x_train := x.1
  let x_test := x.2
  let y_train := y.1
  let y_test := y.2
  let xs :=
    if x_train.ndim = 1 ∧ x_test.ndim = 1 then
      (x_train.addTrailingAxis, x_test.addTrailingAxis)
    else if 2 < x_train.ndim ∧ 2 < x_test.ndim then
      (x_train.squeeze, x_test.squeeze)
    else (x_train, x_test)
  (xs.1, xs.2, y_train.squeeze, y_test.squeeze)

/-- The two training strategies dispatched by `select_model`. -/
inductive Strategy
  | regression
  | classification
deriving DecidableEq, Repr

/-- Function `select_model(y)` from `src/conn2res/task.py` lines 115-134.  The source
checks `y.dtype in [np.float32, np.float64]` and
`y.dtype in [np.int32, np.int64]`; every other dtype falls off the end of
the function, which in Python returns `None` — modelled by `Option`.
Both arms of every inner dimensionality / label-count branch return the
same strategy (the multi-output variants are commented out in the source). -/
def select_model (y : NDArray) : Option Strategy :=
  if y.dtype = DType.float32 ∨ y.dtype = DType.float64 then
    if y.squeeze.ndim = 1 then some Strategy.regression
    else some Strategy.regression
  else if y.dtype = DType.int32 ∨ y.dtype = DType.int64 then
    if y.squeeze.ndim = 1 then
      if np_unique_len y = 2 then some Strategy.classification
      else some Strategy.classification
    else some Strategy.classification
  else none

/-- A sample-weight array (argument of `fit` / `score` / metric functions). -/
abbrev SW := List ℚ

/-- Keyword arguments of a metric function (`metric_kws` / `metric_kwargs`
in the source), modelled as an association list of string options. -/
abbrev MetricKws := List (String × String)

/-- Constructor keyword arguments of `Ridge` / `RidgeClassifier`
(`model_kws` in the source). -/
structure ModelKws where
  alpha : ℚ
  fit_intercept : Bool
deriving DecidableEq, Repr

/-- The default `model_kws = dict(alpha=0.5, fit_intercept=True)` of both
`regression` and `classification`. -/
def default_model_kws : ModelKws := ModelKws.mk (1 / 2) true

/-- The default `metric_kws = dict(multioutput=uniform_average)` of
`regression`. -/
def regression_default_metric_kws : MetricKws :=
  [("multioutput", "uniform_average")]

/-- The default `metric_kws = dict()` of `classification`. -/
def classification_default_metric_kws : MetricKws := []

/-- An estimator instance (Ridge or RidgeClassifier).  The internals of the
fitting algorithm are external (scikit-learn); the model carries its
construction parameters and the data of the most recent `fit` call, which
is all `predict` and `score` may depend on. -/
structure Model where
  strategy : Strategy
  kws : ModelKws
  fitted : Option (NDArray × NDArray × Option SW)
deriving DecidableEq, Repr

/-- Method `model.fit(x, y, sample_weight)`: records the training data in place
(scikit-learn mutates and returns the estimator). -/
def Model.fit (m : Model) (x y : NDArray) (sw : Option SW) : Model :=
  Model.mk m.strategy m.kws (some (x, y, sw))

/-- Observable interaction events of one evaluation call. -/
inductive Event
  | mkDefault (s : Strategy) (kws : ModelKws)
  | fitCall (x y : NDArray) (sw : Option SW)
  | scoreCall (x y : NDArray) (sw : Option SW)
  | registryLookup (metric : String)
  | predictCall (x : NDArray)
deriving DecidableEq, Repr

/-- Python exceptions the evaluation code can raise: `TypeError` from
calling the `None` returned by `select_model`, `AttributeError` from
`getattr(performance, metric)` on an unknown metric name, and `NameError`
from `return df_res, model` when the metric loop never ran. -/
inductive Err
  | typeError
  | attributeError (name : String)
  | nameError
deriving DecidableEq, Repr

/-- The external collaborators of the evaluation pipeline: the estimator's
`predict` / `score` capabilities (scikit-learn) and the metric registry
(the `conn2res.performance` module, looked up via `getattr`; `none` models
a missing attribute). -/
structure Extern where
  predict : Model → NDArray → NDArray
  score : Model → NDArray → NDArray → Option SW → ℚ
  registry : String → Option (NDArray → NDArray → Option SW → MetricKws → ℚ)

/-- Function `regression(x, y, model, metric, model_kws, metric_kws, kwargs)` from
`src/conn2res/task.py` lines 40-74: build the default Ridge when no model
is supplied, fit it on the training data, then either call the model's own
`score` on the test data (metric `score`) or resolve the metric name
against the `performance` registry, predict on the test states, and call
the metric as `func(y_test, y_pred, sample_weight=sw_test, **metric_kws)`. -/
def regression (E : Extern) (x y : NDArray × NDArray) (model? : Option Model)
    (metric : String) (model_kws : ModelKws) (metric_kws : MetricKws)
    (sample_weight : Option SW × Option SW) :
    Except Err (ℚ × Model × List Event) :=
  let sw_train := sample_weight.1
  let sw_test := sample_weight.2
  let x_train := x.1
  let x_test := x.2
  let y_train := y.1
  let y_test := y.2
  let ev0 : List Event :=
    match model? with
    | none => [Event.mkDefault Strategy.regression model_kws]
    | some _ => []
  let model0 : Model := model?.getD (Model.mk Strategy.regression model_kws none)
  let model := model0.fit x_train y_train sw_train
  let evs := ev0 ++ [Event.fitCall x_train y_train sw_train]
  if metric = "score" then
    Except.ok (E.score model x_test y_test sw_test, model,
      evs ++ [Event.scoreCall x_test y_test sw_test])
  else
    match E.registry metric with
    | none => Except.error (Err.attributeError metric)
    | some f =>
      Except.ok (f y_test (E.predict model x_test) sw_test metric_kws, model,
        evs ++ [Event.registryLookup metric, Event.predictCall x_test])

/-- Function `classification(x, y, model, metric, model_kws, metric_kws, kwargs)`
from `src/conn2res/task.py` lines 77-112: identical to `regression` except
that the default estimator is a RidgeClassifier (and the default
`metric_kws` differ, applied at the call sites). -/
def classification (E : Extern) (x y : NDArray × NDArray)
    (model? : Option Model) (metric : String) (model_kws : ModelKws)
    (metric_kws : MetricKws) (sample_weight : Option SW × Option SW) :
    Except Err (ℚ × Model × List Event) :=
  let sw_train := sample_weight.1
  let sw_test := sample_weight.2
  let x_train := x.1
  let x_test := x.2
  let y_train := y.1
  let y_test := y.2
  let ev0 : List Event :=
    match model? with
    | none => [Event.mkDefault Strategy.classification model_kws]
    | some _ => []
  let model0 : Model :=
    model?.getD (Model.mk Strategy.classification model_kws none)
  let model := model0.fit x_train y_train sw_train
  let evs := ev0 ++ [Event.fitCall x_train y_train sw_train]
  if metric = "score" then
    Except.ok (E.score model x_test y_test sw_test, model,
      evs ++ [Event.scoreCall x_test y_test sw_test])
  else
    match E.registry metric with
    | none => Except.error (Err.attributeError metric)
    | some f =>
      Except.ok (f y_test (E.predict model x_test) sw_test metric_kws, model,
        evs ++ [Event.registryLookup metric, Event.predictCall x_test])

/-- The `**kwargs` forwarded by `run_task` to `regression` /
`classification`: an optional caller-supplied estimator, optional
constructor and metric keyword overrides, and the sample-weight pair. -/
structure Kwargs where
  model : Option Model
  model_kws : Option ModelKws
  metric_kws : Option MetricKws
  sample_weight : Option SW × Option SW
deriving Repr

/-- The `kwargs` value with every field absent (Python defaults). -/
def Kwargs.empty : Kwargs := Kwargs.mk none none none (none, none)

/-- Python-dict insertion: an existing key keeps its position and gets the
new value; a new key is appended. -/
def dictInsert (l : List (String × ℚ)) (key : String) (v : ℚ) :
    List (String × ℚ) :=
  if l.any (fun p => p.1 = key) then
    l.map (fun p => if p.1 = key then (key, v) else p)
  else l ++ [(key, v)]

/-- The `for m in metric` loop of `run_task` (`src/conn2res/task.py` lines
176-180).  Each iteration calls the selected strategy function afresh with
the **same** kwargs (so the caller-supplied model, or `None`, is passed
anew every time); the metrics dict and the rebound `model` local are
threaded through.  Calling the `None` returned by `select_model` raises a
`TypeError`. -/
def run_metrics (E : Extern) (x_train x_test y_train y_test : NDArray)
    (func? : Option Strategy) (k : Kwargs) :
    List String → List (String × ℚ) × Option Model × List Event →
    Except Err (List (String × ℚ) × Option Model × List Event)
  | [], acc => Except.ok acc
  | m :: ms, acc =>
    match func? with
    | none => Except.error Err.typeError
    | some Strategy.regression =>
      match regression E (x_train, x_test) (y_train, y_test) k.model m
          (k.model_kws.getD default_model_kws)
          (k.metric_kws.getD regression_default_metric_kws)
          k.sample_weight with
      | Except.error e => Except.error e
      | Except.ok (v, mdl, ev) =>
        run_metrics E x_train x_test y_train y_test func? k ms
          (dictInsert acc.1 m v, some mdl, acc.2.2 ++ ev)
    | some Strategy.classification =>
      match classification E (x_train, x_test) (y_train, y_test) k.model m
          (k.model_kws.getD default_model_kws)
          (k.metric_kws.getD classification_default_metric_kws)
          k.sample_weight with
      | Except.error e => Except.error e
      | Except.ok (v, mdl, ev) =>
        run_metrics E x_train x_test y_train y_test func? k ms
          (dictInsert acc.1 m v, some mdl, acc.2.2 ++ ev)

/-- Function `run_task(reservoir_states, target, metric, kwargs)` from
`src/conn2res/task.py` lines 137-184: normalize shapes with
`check_xy_dims`, select the strategy from the (squeezed) training target,
evaluate every requested metric in order, and return the metrics row
together with the (last) fitted model.  A `metric` passed as a plain
string is first wrapped into a one-element list by the source; the
embedding takes the list form.  If the metric list is empty the Python
`return df_res, model` raises a `NameError` (`model` was never bound). -/
def run_task (E : Extern) (reservoir_states target : NDArray × NDArray)
    (metric : List String) (k : Kwargs) :
    Except Err (List (String × ℚ) × Model × List Event) :=
  let c := check_xy_dims reservoir_states target
  let x_train := c.1
  let x_test := c.2.1
  let y_train := c.2.2.1
  let y_test := c.2.2.2
  match run_metrics E x_train x_test y_train y_test (select_model y_train) k
      metric ([], none, []) with
  | Except.error e => Except.error e
  | Except.ok (row, some mdl, evs) => Except.ok (row, mdl, evs)
  | Except.ok (_, none, _) => Except.error Err.nameError

namespace Example1

/-- A weight or state matrix of `example1_sims.py`, as a list of rows. -/
abbrev Mat := List (List ℚ)

/-- An input or target signal. -/
abbrev Sig := List ℚ

/-- Python `alpha * conn.w`: NumPy scalar multiplication builds a new array and
leaves the operand untouched. -/
def smulMat (a : ℚ) (m : Mat) : Mat :=
  m.map (fun row => row.map (fun v => a * v))

/-- Round-half-even to an integer, the tie-breaking rule of `np.round`:
with `f = ⌊x⌋` and fractional remainder `r / den`, round down below one
half, up above one half, and to the even neighbour on a tie.  Written on
the numerator and denominator so that the kernel can evaluate it. -/
def roundHalfEven (x : ℚ) : ℤ :=
  let f := Int.ediv x.num x.den
  let r := Int.emod x.num x.den
  if 2 * r < (x.den : ℤ) then f
  else if (x.den : ℤ) < 2 * r then f + 1
  else if f % 2 = 0 then f else f + 1

/-- NumPy `np.round(x, d)` on exact rational inputs: round-half-even of
`x * 10 ^ d` (formed as the rational `(x.num * 10 ^ d) / x.den`), divided
back by `10 ^ d`. -/
def np_round (d : ℕ) (x : ℚ) : ℚ :=
  mkRat (roundHalfEven (mkRat (x.num * ((10 ^ d : ℕ) : ℤ)) x.den)) (10 ^ d)

/-- Constant `ALPHAS = np.linspace(0, 2, 41)[1:]` from `src/examples/example1_sims.py`
line 51, in exact arithmetic: the values `i * 2 / 40` for
`i = 1, ..., 40`. -/
def ALPHAS : List ℚ :=
  ((List.range 41).map (fun i => mkRat (2 * i) 40)).drop 1

/-- One row of the per-module result frame returned by the readout's task
runner (`module`, `n_nodes` and the `corrcoef` metric column of
`METRIC = [corrcoef]`). -/
structure ModuleRow where
  module : String
  n_nodes : ℕ
  corrcoef : ℚ
deriving DecidableEq, Repr

/-- One row of the persisted score table: the columns
`[alpha, module, n_nodes, corrcoef]` selected at
`src/examples/example1_sims.py` line 113. -/
structure SweepRow where
  alpha : ℚ
  module : String
  n_nodes : ℕ
  corrcoef : ℚ
deriving DecidableEq, Repr

/-- Output identifier of one workflow run: the `filename` argument of
`run_workflow`, built as an f-string in `run_experiment`. -/
inductive OutId
  | empiricalId (connectome : String)
  | nullId (connectome : String) (i : ℕ)
deriving DecidableEq, Repr

/-- The concrete string the source interpolates into the csv path. -/
def OutId.render : OutId → String
  | OutId.empiricalId c => c ++ "_empirical"
  | OutId.nullId c i => c ++ "_null_" ++ toString i

/-- Modelled from the spec: the collaborators of the sweep driver that are
repository code absent from `src/` or declared external by the spec —
`conn2res.connectivity.Conn` (`randomize`, `scale_and_normalize`,
`get_nodes`), `conn2res.reservoir.EchoStateNetwork.simulate`, and
`conn2res.readout` (`train_test_split`: a single deterministic split rule;
`Readout.run_task` with `readout_modules` enabled: module breakdown, one
result row per module).  Each is an arbitrary pure function; the input
projection `w_in` construction is folded into the node sets it is built
from. -/
structure Collab where
  randomize : Mat → Mat
  scale_and_normalize : Mat → Mat
  get_input_nodes : Mat → List ℕ
  get_output_nodes : Mat → List ℕ
  simulate : Mat → List ℕ → List ℕ → Sig → Mat
  train_test_split : Sig → Sig → Sig × Sig × Sig × Sig
  readout_run_task : Mat × Mat → Sig × Sig → List ModuleRow

/-- Log of one iteration of the `for alpha in ALPHAS` loop: the sweep value,
the weight matrix handed to the simulator (`esn.w` after the assignment
`esn.w = alpha * conn.w`), and the train/test partitions the evaluation
used. -/
structure IterLog where
  alpha : ℚ
  sim_w : Mat
  x_part : Sig × Sig
  y_part : Sig × Sig
deriving DecidableEq, Repr

/-- The persisted output of one `run_workflow` call: the csv identifier,
the concatenated and column-selected score table, the per-iteration log,
and the value of `conn.w` after the loop. -/
structure WorkflowOut where
  filename : OutId
  table : List SweepRow
  iters : List IterLog
  conn_w_final : Mat
deriving DecidableEq, Repr

/-- The body of the `for alpha in ALPHAS` loop of `run_workflow`
(`src/examples/example1_sims.py` lines 86-110): assign
`esn.w = alpha * conn.w` (plain assignment from the loop-invariant
`conn.w`, not an in-place update), simulate the train and test states with
those weights, run the readout task with module breakdown, tag every
returned row with `np.round(alpha, 3)`, and append.  The accumulator
carries the growing table, the iteration log and the current `esn.w`. -/
def sweep_step (C : Collab) (conn_w : Mat) (input_nodes output_nodes : List ℕ)
    (x_train x_test y_train y_test : Sig)
    (acc : List SweepRow × List IterLog × Mat) (alpha : ℚ) :
    List SweepRow × List IterLog × Mat :=
  let esn_w := smulMat alpha conn_w
  let rs_train := C.simulate esn_w input_nodes output_nodes x_train
  let rs_test := C.simulate esn_w input_nodes output_nodes x_test
  let rows := C.readout_run_task (rs_train, rs_test) (y_train, y_test)
  let tagged := rows.map
    (fun r => SweepRow.mk (np_round 3 alpha) r.module r.n_nodes r.corrcoef)
  (acc.1 ++ tagged,
   acc.2.1 ++ [IterLog.mk alpha esn_w (x_train, x_test) (y_train, y_test)],
   esn_w)

/-- The rows contributed to the score table by one sweep value `a`. -/
def sweep_rows_at (C : Collab) (conn_w : Mat)
    (input_nodes output_nodes : List ℕ) (x_train x_test y_train y_test : Sig)
    (a : ℚ) : List SweepRow :=
  (C.readout_run_task
      (C.simulate (smulMat a conn_w) input_nodes output_nodes x_train,
       C.simulate (smulMat a conn_w) input_nodes output_nodes x_test)
      (y_train, y_test)).map
    (fun r => SweepRow.mk (np_round 3 a) r.module r.n_nodes r.corrcoef)

/-- Matrix `conn.w` as it stands when the sweep loop starts: the input matrix,
randomized when `rewire` is set, then scaled and normalized
(`src/examples/example1_sims.py` lines 61-65). -/
def base_w (C : Collab) (w : Mat) (rewire : Bool) : Mat :=
  C.scale_and_normalize (if rewire then C.randomize w else w)

/-- Function `run_workflow(w, x, y, rewire, filename)` from
`src/examples/example1_sims.py` lines 57-117: build and normalize the
connectivity (randomizing first when `rewire`), read off the input and
output node sets, split the signals into train/test once, run the sweep
loop over `ALPHAS`, and persist the concatenated table under
`filename`. -/
def run_workflow (C : Collab) (w : Mat) (x y : Sig) (rewire : Bool)
    (filename : OutId) : WorkflowOut :=
  let conn_w := base_w C w rewire
  let input_nodes := C.get_input_nodes conn_w
  let output_nodes := C.get_output_nodes conn_w
  let s := C.train_test_split x y
  let x_train := s.1
  let x_test := s.2.1
  let y_train := s.2.2.1
  let y_test := s.2.2.2
  let res := ALPHAS.foldl
    (sweep_step C conn_w input_nodes output_nodes x_train x_test y_train
      y_test)
    ([], [], conn_w)
  WorkflowOut.mk filename res.1 res.2.1 conn_w

/-- Scheduling events of one `run_experiment` call: the synchronous
empirical workflow run and the submissions of null jobs to the worker
pool, in program order. -/
inductive ExpEvent
  | runSync (rewire : Bool) (filename : OutId)
  | submit (rewire : Bool) (filename : OutId)
deriving DecidableEq, Repr

/-- Constant `N_PROCESS = 32`, the fixed worker-pool size of the source. -/
def N_PROCESS : ℕ := 32

/-- The `n_nulls = 500` hard-coded as `range(500)` in the source. -/
def N_NULLS : ℕ := 500

/-- Function `run_experiment(connectome, x, y)` from `src/examples/example1_sims.py`
lines 120-153, generalized over the null count (the source fixes
`n_nulls = N_NULLS = 500`): run the empirical workflow synchronously with
`rewire=False` and filename `{connectome}_empirical`, then build one job
per null index `i` with an own copy of `w` and filename
`{connectome}_null_{i}` (with `rewire` left at its default `True`) and
submit them to the bounded pool.  Modelled from the spec: each pool worker
executes its job's `run_workflow` call in isolation and the scheduler
blocks on every result, so the produced artifacts are exactly the per-job
`run_workflow` outputs; the event list records program order. -/
def run_experiment (C : Collab) (n_nulls : ℕ) (w : Mat) (x y : Sig)
    (connectome : String) : List ExpEvent × List WorkflowOut :=
  let empirical := run_workflow C w x y false (OutId.empiricalId connectome)
  let nulls := (List.range n_nulls).map
    (fun i => run_workflow C w x y true (OutId.nullId connectome i))
  (ExpEvent.runSync false (OutId.empiricalId connectome) ::
      (List.range n_nulls).map
        (fun i => ExpEvent.submit true (OutId.nullId connectome i)),
   empirical :: nulls)

end Example1

/-! ## Basic facts about the embedded pipeline -/

/-- Squeezing never changes the dtype tag. -/
theorem squeeze_dtype (a : NDArray) : a.squeeze.dtype = a.dtype := rfl

/-- The normalized training target of `check_xy_dims` is the squeezed first
target array. -/
theorem check_xy_dims_y_train (x y : NDArray × NDArray) :
    (check_xy_dims x y).2.2.1 = y.1.squeeze := rfl

/-- Helper fact: `select_model` returns `None` for every dtype outside the four it
inspects. -/
theorem select_model_none_of_dtype (y : NDArray)
    (h : ¬ (y.dtype = DType.float32 ∨ y.dtype = DType.float64 ∨
        y.dtype = DType.int32 ∨ y.dtype = DType.int64)) :
    select_model y = none := by
  push_neg at h
  obtain ⟨h1, h2, h3, h4⟩ := h
  simp [select_model, h1, h2, h3, h4]

/-! ## C1 — strategy selection by dtype -/

/-- C1 counterexample: `float16` is a floating-point dtype, but
`select_model` returns no strategy for a `float16` target (the source only
checks `float32` and `float64`), so the claim "every floating element type
maps to the regression strategy" is false. -/
theorem c1_counterexample :
    DType.isFloating DType.float16 = true ∧
      select_model (NDArray.mk [4] DType.float16 [0, 1, 2, 3]) ≠
        some Strategy.regression := by
  decide

/-- C1 amended: for targets of dtype `float32` or `float64`,
`select_model` returns the regression strategy, and for targets of dtype
`int32` or `int64` it returns the classification strategy, regardless of
dimensionality and of the number of distinct label values; other floating
or integer widths (`float16`, `int8`, `int16`, `uint8`, ...) are not
recognized and yield no strategy. -/
theorem c1_amended (y : NDArray) :
    ((y.dtype = DType.float32 ∨ y.dtype = DType.float64) →
      select_model y = some Strategy.regression) ∧
    ((y.dtype = DType.int32 ∨ y.dtype = DType.int64) →
      select_model y = some Strategy.classification) := by
  constructor
  · intro h
    rcases h with h | h <;> simp [select_model, h]
  · intro h
    rcases h with h | h <;> simp [select_model, h]

/-- C1 witness: the amended theorem applied to a concrete 2-D float64
target (multi-label, so dimensionality is exercised) and a concrete
3-label int32 target (so label count is exercised). -/
theorem c1_amended_witness :
    select_model (NDArray.mk [4, 2] DType.float64 [0, 1, 2, 3, 4, 5, 6, 7]) =
        some Strategy.regression ∧
      select_model (NDArray.mk [6] DType.int32 [0, 1, 2, 0, 1, 2]) =
        some Strategy.classification :=
  ⟨(c1_amended (NDArray.mk [4, 2] DType.float64 [0, 1, 2, 3, 4, 5, 6, 7])).1
      (Or.inr rfl),
   (c1_amended (NDArray.mk [6] DType.int32 [0, 1, 2, 0, 1, 2])).2
      (Or.inl rfl)⟩

/-! ## C3 — shape normalization has no error path -/

/-- A 1-D train state array used as the failing input for C3. -/
def c3_x_train : NDArray := NDArray.mk [5] DType.float64 [0, 1, 2, 3, 4]

/-- A 2-D test state array that disagrees with `c3_x_train` on
dimensionality. -/
def c3_x_test : NDArray := NDArray.mk [5, 2] DType.float64
  [0, 1, 2, 3, 4, 5, 6, 7, 8, 9]

/-- A target array for the C3 failing input. -/
def c3_y : NDArray := NDArray.mk [5] DType.float64 [0, 1, 2, 3, 4]

/-- C3: the claim says an irreconcilable (1-D train, 2-D test) state pair
must fail with a shape-mismatch error, but `check_xy_dims` has no error
path at all: on this pair neither normalization branch applies and the
mismatched arrays are returned unchanged (the code silently passes them
through), contradicting the claim and the function's own stated purpose. -/
theorem c3_mismatch_passes_through :
    c3_x_train.ndim = 1 ∧ c3_x_test.ndim = 2 ∧
      check_xy_dims (c3_x_train, c3_x_test) (c3_y, c3_y) =
        (c3_x_train, c3_x_test, c3_y, c3_y) := by
  decide

/-! ## C4 — unsupported target dtype -/

/-- C4 counterexample: for a `complex64` target — neither a floating nor an
integer dtype — strategy selection does not fail with an
unsupported-target-type error; it returns no strategy (`None`),
contradicting the claim "rather than returning no strategy". -/
theorem c4_counterexample :
    DType.isFloating DType.complex64 = false ∧
      DType.isInteger DType.complex64 = false ∧
      select_model (NDArray.mk [4] DType.complex64 [0, 1, 0, 1]) = none := by
  decide

/-- C4 amended: for every target whose dtype is not one of
{`float32`, `float64`, `int32`, `int64`} (in particular any dtype that is
neither floating nor integer), `select_model` returns no strategy, and an
evaluation call with a nonempty metric list then aborts with the
`TypeError` raised by invoking the missing strategy — not with a dedicated
unsupported-target-type error. -/
theorem c4_amended (E : Extern) (xs ys : NDArray × NDArray)
    (metric : List String) (k : Kwargs)
    (hd : ¬ (ys.1.dtype = DType.float32 ∨ ys.1.dtype = DType.float64 ∨
        ys.1.dtype = DType.int32 ∨ ys.1.dtype = DType.int64))
    (hm : metric ≠ []) :
    run_task E xs ys metric k = Except.error Err.typeError := by
  obtain ⟨m, ms, rfl⟩ := List.exists_cons_of_ne_nil hm
  have hsel : select_model ((check_xy_dims xs ys).2.2.1) = none := by
    apply select_model_none_of_dtype
    rw [check_xy_dims_y_train, squeeze_dtype]
    exact hd
  simp [run_task, hsel, run_metrics]

/-- A concrete external-collaborator bundle with an empty metric registry. -/
def externEmpty : Extern :=
  Extern.mk (fun _ x => x) (fun _ _ _ _ => 0) (fun _ => none)

/-- A concrete boolean-dtype target pair for the C4 witness. -/
def c4_y : NDArray := NDArray.mk [4] DType.bool_ [0, 1, 0, 1]

/-- A concrete float64 state array reused by several witnesses. -/
def wit_x : NDArray := NDArray.mk [4, 2] DType.float64
  [0, 1, 2, 3, 4, 5, 6, 7]

/-- C4 witness: the amended theorem applied to a concrete boolean-dtype
target and the metric list `[score]`. -/
theorem c4_amended_witness :
    run_task externEmpty (wit_x, wit_x) (c4_y, c4_y) ["score"] Kwargs.empty =
      Except.error Err.typeError :=
  c4_amended externEmpty (wit_x, wit_x) (c4_y, c4_y) ["score"] Kwargs.empty
    (by decide) (by decide)

/-! ## C6 — metric dispatch -/

/-- The estimator an evaluation call actually scores with: the
caller-supplied model if any, else a fresh default instance of the given
strategy, fitted on the training data. -/
def fitted_model (s : Strategy) (model? : Option Model) (kws : ModelKws)
    (x_train y_train : NDArray) (sw_train : Option SW) : Model :=
  (model?.getD (Model.mk s kws none)).fit x_train y_train sw_train

/-- C6: in both strategy functions the metric name `score` is dispatched to
the estimator's own `score` capability on
(test states, test targets, test sample weight) — the result depends only
on the `score` capability (not on the registry, not on `predict`, and the
metric configuration is not forwarded) — while every other metric name is
resolved against the registry and, when present as `f`, computed as
`f test_targets predicted_values test_sample_weight metric_config` with
`predicted_values = predict(test_states)`. -/
theorem c6_dispatch (E E2 : Extern) (x y : NDArray × NDArray)
    (model? : Option Model) (kws : ModelKws) (mkws mkws2 : MetricKws)
    (sw : Option SW × Option SW) :
    ((regression E x y model? "score" kws mkws sw).map (fun r => r.1) =
      Except.ok (E.score (fitted_model Strategy.regression model? kws x.1 y.1
        sw.1) x.2 y.2 sw.2)) ∧
    (E2.score = E.score →
      regression E2 x y model? "score" kws mkws2 sw =
        regression E x y model? "score" kws mkws sw) ∧
    (∀ m, m ≠ "score" → ∀ f, E.registry m = some f →
      (regression E x y model? m kws mkws sw).map (fun r => r.1) =
        Except.ok (f y.2 (E.predict (fitted_model Strategy.regression model?
          kws x.1 y.1 sw.1) x.2) sw.2 mkws)) ∧
    ((classification E x y model? "score" kws mkws sw).map (fun r => r.1) =
      Except.ok (E.score (fitted_model Strategy.classification model? kws x.1
        y.1 sw.1) x.2 y.2 sw.2)) ∧
    (E2.score = E.score →
      classification E2 x y model? "score" kws mkws2 sw =
        classification E x y model? "score" kws mkws sw) ∧
    (∀ m, m ≠ "score" → ∀ f, E.registry m = some f →
      (classification E x y model? m kws mkws sw).map (fun r => r.1) =
        Except.ok (f y.2 (E.predict (fitted_model Strategy.classification
          model? kws x.1 y.1 sw.1) x.2) sw.2 mkws)) := by
  refine ⟨?_, ?_, ?_, ?_, ?_, ?_⟩
  · simp [regression, fitted_model, Except.map]
  · intro hs
    simp [regression, hs]
  · intro m hm f hf
    simp [regression, hm, hf, fitted_model, Except.map]
  · simp [classification, fitted_model, Except.map]
  · intro hs
    simp [classification, hs]
  · intro m hm f hf
    simp [classification, hm, hf, fitted_model, Except.map]

/-- A concrete external-collaborator bundle whose registry resolves only
the names `m1` and `m2`. -/
def externTwo : Extern :=
  Extern.mk (fun _ x => x) (fun _ _ _ _ => 37 / 10)
    (fun n => if n = "m1" ∨ n = "m2" then
      some (fun _ _ _ _ => 1 / 2) else none)

/-- A concrete 1-D float64 target array reused by several witnesses. -/
def wit_y : NDArray := NDArray.mk [4] DType.float64 [0, 1, 2, 3]

/-- C6 witness: the dispatch theorem applied to concrete inputs — the
`score` sentinel scores through the estimator capability, and the
registry-resolved metric `m1` is computed from the registry function. -/
theorem c6_dispatch_witness :
    ((regression externTwo (wit_x, wit_x) (wit_y, wit_y) none "score"
        default_model_kws [] (none, none)).map (fun r => r.1) =
      Except.ok (externTwo.score (fitted_model Strategy.regression none
        default_model_kws wit_x wit_y none) wit_x wit_y none)) ∧
    ((classification externTwo (wit_x, wit_x) (wit_y, wit_y) none "m1"
        default_model_kws [] (none, none)).map (fun r => r.1) =
      Except.ok ((fun (_ : NDArray) (_ : NDArray) (_ : Option SW)
          (_ : MetricKws) => (1 / 2 : ℚ)) wit_y (externTwo.predict
        (fitted_model Strategy.classification none default_model_kws wit_x
          wit_y none) wit_x) none [])) :=
  ⟨(c6_dispatch externTwo externTwo (wit_x, wit_x) (wit_y, wit_y) none
      default_model_kws [] [] (none, none)).1,
   (c6_dispatch externTwo externTwo (wit_x, wit_x) (wit_y, wit_y) none
      default_model_kws [] [] (none, none)).2.2.2.2.2 "m1" (by decide)
      (fun _ _ _ _ => 1 / 2) rfl⟩

/-! ## C5 — unknown metric aborts the whole row -/

/-- If the metric list contains a name that is neither the sentinel
`score` nor present in the registry, the metric loop aborts with the
`AttributeError` of some such name, whatever the accumulator holds. -/
theorem run_metrics_unknown (E : Extern) (xtr xte ytr yte : NDArray)
    (s : Strategy) (k : Kwargs) :
    ∀ (ms : List String)
      (acc : List (String × ℚ) × Option Model × List Event),
      (∃ m ∈ ms, m ≠ "score" ∧ E.registry m = none) →
      ∃ name, name ≠ "score" ∧ E.registry name = none ∧
        run_metrics E xtr xte ytr yte (some s) k ms acc =
          Except.error (Err.attributeError name)
  | [], _, hbad => by simp at hbad
  | m :: ms, acc, hbad => by
    by_cases hm : m = "score"
    · have hrest : ∃ m₀ ∈ ms, m₀ ≠ "score" ∧ E.registry m₀ = none := by
        rcases hbad with ⟨m₀, hmem, hne, hreg⟩
        rcases List.mem_cons.mp hmem with rfl | hmem'
        · exact absurd hm hne
        · exact ⟨m₀, hmem', hne, hreg⟩
      obtain ⟨name, h1, h2, h3⟩ :=
        run_metrics_unknown E xtr xte ytr yte s k ms
          (dictInsert acc.1 m
            (E.score (fitted_model s k.model
              (k.model_kws.getD default_model_kws) xtr ytr k.sample_weight.1)
              xte yte k.sample_weight.2),
           some (fitted_model s k.model (k.model_kws.getD default_model_kws)
             xtr ytr k.sample_weight.1),
           acc.2.2 ++ ((match k.model with
             | none => [Event.mkDefault s (k.model_kws.getD default_model_kws)]
             | some _ => []) ++
            [Event.fitCall xtr ytr k.sample_weight.1] ++
            [Event.scoreCall xte yte k.sample_weight.2])) hrest
      refine ⟨name, h1, h2, ?_⟩
      cases s <;>
        simpa [run_metrics, regression, classification, hm, fitted_model,
          Model.fit] using h3
    · cases hr : E.registry m with
      | none =>
        refine ⟨m, hm, hr, ?_⟩
        cases s <;> simp [run_metrics, regression, classification, hm, hr]
      | some f =>
        have hrest : ∃ m₀ ∈ ms, m₀ ≠ "score" ∧ E.registry m₀ = none := by
          rcases hbad with ⟨m₀, hmem, hne, hreg⟩
          rcases List.mem_cons.mp hmem with rfl | hmem'
          · rw [hr] at hreg
            exact absurd hreg (by simp)
          · exact ⟨m₀, hmem', hne, hreg⟩
        cases s with
        | regression =>
          obtain ⟨name, h1, h2, h3⟩ :=
            run_metrics_unknown E xtr xte ytr yte Strategy.regression k ms
              (dictInsert acc.1 m
                (f yte (E.predict (fitted_model Strategy.regression k.model
                  (k.model_kws.getD default_model_kws) xtr ytr
                  k.sample_weight.1) xte) k.sample_weight.2
                  (k.metric_kws.getD regression_default_metric_kws)),
               some (fitted_model Strategy.regression k.model
                 (k.model_kws.getD default_model_kws) xtr ytr
                 k.sample_weight.1),
               acc.2.2 ++ ((match k.model with
                 | none => [Event.mkDefault Strategy.regression
                     (k.model_kws.getD default_model_kws)]
                 | some _ => []) ++
                [Event.fitCall xtr ytr k.sample_weight.1] ++
                [Event.registryLookup m, Event.predictCall xte])) hrest
          refine ⟨name, h1, h2, ?_⟩
          simpa [run_metrics, regression, hm, hr, fitted_model, Model.fit]
            using h3
        | classification =>
          obtain ⟨name, h1, h2, h3⟩ :=
            run_metrics_unknown E xtr xte ytr yte Strategy.classification k ms
              (dictInsert acc.1 m
                (f yte (E.predict (fitted_model Strategy.classification
                  k.model (k.model_kws.getD default_model_kws) xtr ytr
                  k.sample_weight.1) xte) k.sample_weight.2
                  (k.metric_kws.getD classification_default_metric_kws)),
               some (fitted_model Strategy.classification k.model
                 (k.model_kws.getD default_model_kws) xtr ytr
                 k.sample_weight.1),
               acc.2.2 ++ ((match k.model with
                 | none => [Event.mkDefault Strategy.classification
                     (k.model_kws.getD default_model_kws)]
                 | some _ => []) ++
                [Event.fitCall xtr ytr k.sample_weight.1] ++
                [Event.registryLookup m, Event.predictCall xte])) hrest
          refine ⟨name, h1, h2, ?_⟩
          simpa [run_metrics, classification, hm, hr, fitted_model, Model.fit]
            using h3

/-- C5: whenever the metric list contains a name that is absent from the
registry and is not the sentinel `score`, the whole evaluation call fails
with the `AttributeError` (unknown-metric error) of such a name and
returns no result row at all — never a partially populated one. -/
theorem c5_unknown_metric_aborts (E : Extern) (xs ys : NDArray × NDArray)
    (metric : List String) (k : Kwargs) (s : Strategy)
    (hsel : select_model ((check_xy_dims xs ys).2.2.1) = some s)
    (hbad : ∃ m ∈ metric, m ≠ "score" ∧ E.registry m = none) :
    ∃ name, name ≠ "score" ∧ E.registry name = none ∧
      run_task E xs ys metric k = Except.error (Err.attributeError name) := by
  obtain ⟨name, h1, h2, h3⟩ :=
    run_metrics_unknown E (check_xy_dims xs ys).1 (check_xy_dims xs ys).2.1
      (check_xy_dims xs ys).2.2.1 (check_xy_dims xs ys).2.2.2 s k metric
      ([], none, []) hbad
  refine ⟨name, h1, h2, ?_⟩
  simp only [run_task, hsel, h3]

/-- C5 witness: the theorem applied to a concrete float64 target, a
registry that knows `m1` and `m2` only, and the metric list
`[m1, not_a_real_metric]` — the second name is unknown, so the call
errors even though the first metric would have been computable. -/
theorem c5_unknown_metric_aborts_witness :
    ∃ name, name ≠ "score" ∧ externTwo.registry name = none ∧
      run_task externTwo (wit_x, wit_x) (wit_y, wit_y)
          ["m1", "not_a_real_metric"] Kwargs.empty =
        Except.error (Err.attributeError name) :=
  c5_unknown_metric_aborts externTwo (wit_x, wit_x) (wit_y, wit_y)
    ["m1", "not_a_real_metric"] Kwargs.empty Strategy.regression (by decide)
    ⟨"not_a_real_metric", by decide, by decide, rfl⟩

/-! ## C2 — one fit per metric, not one fit per call -/

/-- Recognize estimator `fit` events. -/
def isFitEvent : Event → Bool
  | Event.fitCall _ _ _ => true
  | _ => false

/-- Recognize default-estimator construction events. -/
def isMkDefaultEvent : Event → Bool
  | Event.mkDefault _ _ => true
  | _ => false

/-- The number of `fit` calls recorded in a trace. -/
def countFits (evs : List Event) : ℕ := (evs.filter isFitEvent).length

/-- The number of fresh default estimators created in a trace. -/
def countMkDefaults (evs : List Event) : ℕ :=
  (evs.filter isMkDefaultEvent).length

/-- The number of `fit` calls performed by an evaluation call, when it
succeeded. -/
def fitCountOf (r : Except Err (List (String × ℚ) × Model × List Event)) :
    Option ℕ :=
  match r with
  | Except.ok (_, _, evs) => some (countFits evs)
  | Except.error _ => none

/-- The number of fresh default estimators an evaluation call created,
when it succeeded. -/
def mkDefaultCountOf
    (r : Except Err (List (String × ℚ) × Model × List Event)) : Option ℕ :=
  match r with
  | Except.ok (_, _, evs) => some (countMkDefaults evs)
  | Except.error _ => none

/-- Fit counting distributes over trace concatenation. -/
theorem countFits_append (a b : List Event) :
    countFits (a ++ b) = countFits a + countFits b := by
  simp [countFits, List.filter_append]

/-- Default-construction counting distributes over trace concatenation. -/
theorem countMkDefaults_append (a b : List Event) :
    countMkDefaults (a ++ b) = countMkDefaults a + countMkDefaults b := by
  simp [countMkDefaults, List.filter_append]

/-- C2 counterexample: a concrete evaluation call with two requested
metrics and no caller-supplied estimator performs two `fit` calls (one
fresh default estimator per metric), so the estimator is not "fit exactly
once" as the claim states — that would require the count `some 1`. -/
theorem c2_counterexample :
    fitCountOf (run_task externTwo (wit_x, wit_x) (wit_y, wit_y)
        ["m1", "m2"] Kwargs.empty) = some 2 ∧
      fitCountOf (run_task externTwo (wit_x, wit_x) (wit_y, wit_y)
        ["m1", "m2"] Kwargs.empty) ≠ some 1 := by
  constructor
  · rfl
  · intro h
    rw [show fitCountOf (run_task externTwo (wit_x, wit_x) (wit_y, wit_y)
        ["m1", "m2"] Kwargs.empty) = some 2 from rfl] at h
    simp at h

/-- With no caller-supplied estimator and every remaining metric
resolvable, the metric loop succeeds and adds exactly one `fit` event and
one default-construction event per metric to the trace; when at least one
metric was processed the threaded model is bound. -/
theorem run_metrics_counts (E : Extern) (xtr xte ytr yte : NDArray)
    (s : Strategy) (k : Kwargs) (hmodel : k.model = none) :
    ∀ (ms : List String)
      (row : List (String × ℚ)) (mdl : Option Model) (evs : List Event),
      (∀ m ∈ ms, m = "score" ∨ (E.registry m).isSome) →
      ∃ row' mdl' evs',
        run_metrics E xtr xte ytr yte (some s) k ms (row, mdl, evs) =
          Except.ok (row', mdl', evs') ∧
        countFits evs' = countFits evs + ms.length ∧
        countMkDefaults evs' = countMkDefaults evs + ms.length ∧
        (ms = [] → mdl' = mdl) ∧ (ms ≠ [] → mdl'.isSome)
  | [], row, mdl, evs, _ =>
    ⟨row, mdl, evs, rfl, by simp, by simp, fun _ => rfl, fun h => absurd rfl h⟩
  | m :: ms, row, mdl, evs, hok => by
    have hhead := hok m (List.mem_cons_self m ms)
    have htail : ∀ m₀ ∈ ms, m₀ = "score" ∨ (E.registry m₀).isSome :=
      fun m₀ hm₀ => hok m₀ (List.mem_cons_of_mem m hm₀)
    have step_one : ∀ (v : ℚ) (mdl₁ : Model) (tail : List Event),
        countFits tail = 0 → countMkDefaults tail = 0 →
        ∃ row' mdl' evs',
          run_metrics E xtr xte ytr yte (some s) k ms
            (dictInsert row m v, some mdl₁,
             evs ++ ([Event.mkDefault s (k.model_kws.getD default_model_kws)]
               ++ [Event.fitCall xtr ytr k.sample_weight.1] ++ tail)) =
            Except.ok (row', mdl', evs') ∧
          countFits evs' = countFits evs + (ms.length + 1) ∧
          countMkDefaults evs' = countMkDefaults evs + (ms.length + 1) ∧
          mdl'.isSome := by
      intro v mdl₁ tail htf htm
      obtain ⟨row', mdl', evs', heq, hf, hm', hnil, hcons⟩ :=
        run_metrics_counts E xtr xte ytr yte s k hmodel ms
          (dictInsert row m v) (some mdl₁)
          (evs ++ ([Event.mkDefault s (k.model_kws.getD default_model_kws)]
            ++ [Event.fitCall xtr ytr k.sample_weight.1] ++ tail)) htail
      refine ⟨row', mdl', evs', heq, ?_, ?_, ?_⟩
      · rw [hf, countFits_append, countFits_append, countFits_append, htf]
        simp [countFits, isFitEvent, List.filter]
        omega
      · rw [hm', countMkDefaults_append, countMkDefaults_append,
          countMkDefaults_append, htm]
        simp [countMkDefaults, isMkDefaultEvent, List.filter]
        omega
      · rcases List.eq_nil_or_concat ms with rfl | _
        · rw [hnil rfl]
          simp
        · rcases ms with _ | ⟨a, as⟩
          · rw [hnil rfl]
            simp
          · exact hcons (by simp)
    rcases hhead with hm | hreg
    · subst hm
      cases s with
      | regression =>
        obtain ⟨row', mdl', evs', heq, hf, hm', hsome⟩ :=
          step_one (E.score (fitted_model Strategy.regression k.model
              (k.model_kws.getD default_model_kws) xtr ytr k.sample_weight.1)
              xte yte k.sample_weight.2)
            (fitted_model Strategy.regression k.model
              (k.model_kws.getD default_model_kws) xtr ytr k.sample_weight.1)
            [Event.scoreCall xte yte k.sample_weight.2] rfl rfl
        refine ⟨row', mdl', evs', ?_, hf, hm', fun h => by simp at h,
          fun _ => hsome⟩
        rw [show run_metrics E xtr xte ytr yte (some Strategy.regression) k
            ("score" :: ms) (row, mdl, evs) =
          run_metrics E xtr xte ytr yte (some Strategy.regression) k ms
            (dictInsert row "score" (E.score (fitted_model Strategy.regression
              k.model (k.model_kws.getD default_model_kws) xtr ytr
              k.sample_weight.1) xte yte k.sample_weight.2),
             some (fitted_model Strategy.regression k.model
               (k.model_kws.getD default_model_kws) xtr ytr
               k.sample_weight.1),
             evs ++ ([Event.mkDefault Strategy.regression
                 (k.model_kws.getD default_model_kws)]
               ++ [Event.fitCall xtr ytr k.sample_weight.1]
               ++ [Event.scoreCall xte yte k.sample_weight.2])) from by
          simp [run_metrics, regression, hmodel, fitted_model, Model.fit]]
        exact heq
      | classification =>
        obtain ⟨row', mdl', evs', heq, hf, hm', hsome⟩ :=
          step_one (E.score (fitted_model Strategy.classification k.model
              (k.model_kws.getD default_model_kws) xtr ytr k.sample_weight.1)
              xte yte k.sample_weight.2)
            (fitted_model Strategy.classification k.model
              (k.model_kws.getD default_model_kws) xtr ytr k.sample_weight.1)
            [Event.scoreCall xte yte k.sample_weight.2] rfl rfl
        refine ⟨row', mdl', evs', ?_, hf, hm', fun h => by simp at h,
          fun _ => hsome⟩
        rw [show run_metrics E xtr xte ytr yte (some Strategy.classification)
            k ("score" :: ms) (row, mdl, evs) =
          run_metrics E xtr xte ytr yte (some Strategy.classification) k ms
            (dictInsert row "score" (E.score
              (fitted_model Strategy.classification k.model
                (k.model_kws.getD default_model_kws) xtr ytr
                k.sample_weight.1) xte yte k.sample_weight.2),
             some (fitted_model Strategy.classification k.model
               (k.model_kws.getD default_model_kws) xtr ytr
               k.sample_weight.1),
             evs ++ ([Event.mkDefault Strategy.classification
                 (k.model_kws.getD default_model_kws)]
               ++ [Event.fitCall xtr ytr k.sample_weight.1]
               ++ [Event.scoreCall xte yte k.sample_weight.2])) from by
          simp [run_metrics, classification, hmodel, fitted_model, Model.fit]]
        exact heq
    · obtain ⟨f, hf⟩ := Option.isSome_iff_exists.mp hreg
      by_cases hm : m = "score"
      · subst hm
        cases s with
        | regression =>
          obtain ⟨row', mdl', evs', heq, hcf, hcm, hsome⟩ :=
            step_one (E.score (fitted_model Strategy.regression k.model
                (k.model_kws.getD default_model_kws) xtr ytr
                k.sample_weight.1) xte yte k.sample_weight.2)
              (fitted_model Strategy.regression k.model
                (k.model_kws.getD default_model_kws) xtr ytr
                k.sample_weight.1)
              [Event.scoreCall xte yte k.sample_weight.2] rfl rfl
          refine ⟨row', mdl', evs', ?_, hcf, hcm, fun h => by simp at h,
            fun _ => hsome⟩
          rw [show run_metrics E xtr xte ytr yte (some Strategy.regression) k
              ("score" :: ms) (row, mdl, evs) =
            run_metrics E xtr xte ytr yte (some Strategy.regression) k ms
              (dictInsert row "score" (E.score
                (fitted_model Strategy.regression k.model
                  (k.model_kws.getD default_model_kws) xtr ytr
                  k.sample_weight.1) xte yte k.sample_weight.2),
               some (fitted_model Strategy.regression k.model
                 (k.model_kws.getD default_model_kws) xtr ytr
                 k.sample_weight.1),
               evs ++ ([Event.mkDefault Strategy.regression
                   (k.model_kws.getD default_model_kws)]
                 ++ [Event.fitCall xtr ytr k.sample_weight.1]
                 ++ [Event.scoreCall xte yte k.sample_weight.2])) from by
            simp [run_metrics, regression, hmodel, fitted_model, Model.fit]]
          exact heq
        | classification =>
          obtain ⟨row', mdl', evs', heq, hcf, hcm, hsome⟩ :=
            step_one (E.score (fitted_model Strategy.classification k.model
                (k.model_kws.getD default_model_kws) xtr ytr
                k.sample_weight.1) xte yte k.sample_weight.2)
              (fitted_model Strategy.classification k.model
                (k.model_kws.getD default_model_kws) xtr ytr
                k.sample_weight.1)
              [Event.scoreCall xte yte k.sample_weight.2] rfl rfl
          refine ⟨row', mdl', evs', ?_, hcf, hcm, fun h => by simp at h,
            fun _ => hsome⟩
          rw [show run_metrics E xtr xte ytr yte
              (some Strategy.classification) k ("score" :: ms)
              (row, mdl, evs) =
            run_metrics E xtr xte ytr yte (some Strategy.classification) k ms
              (dictInsert row "score" (E.score
                (fitted_model Strategy.classification k.model
                  (k.model_kws.getD default_model_kws) xtr ytr
                  k.sample_weight.1) xte yte k.sample_weight.2),
               some (fitted_model Strategy.classification k.model
                 (k.model_kws.getD default_model_kws) xtr ytr
                 k.sample_weight.1),
               evs ++ ([Event.mkDefault Strategy.classification
                   (k.model_kws.getD default_model_kws)]
                 ++ [Event.fitCall xtr ytr k.sample_weight.1]
                 ++ [Event.scoreCall xte yte k.sample_weight.2])) from by
            simp [run_metrics, classification, hmodel, fitted_model,
              Model.fit]]
          exact heq
      · cases s with
        | regression =>
          obtain ⟨row', mdl', evs', heq, hcf, hcm, hsome⟩ :=
            step_one (f yte (E.predict (fitted_model Strategy.regression
                k.model (k.model_kws.getD default_model_kws) xtr ytr
                k.sample_weight.1) xte) k.sample_weight.2
                (k.metric_kws.getD regression_default_metric_kws))
              (fitted_model Strategy.regression k.model
                (k.model_kws.getD default_model_kws) xtr ytr
                k.sample_weight.1)
              [Event.registryLookup m, Event.predictCall xte] rfl rfl
          refine ⟨row', mdl', evs', ?_, hcf, hcm, fun h => by simp at h,
            fun _ => hsome⟩
          rw [show run_metrics E xtr xte ytr yte (some Strategy.regression) k
              (m :: ms) (row, mdl, evs) =
            run_metrics E xtr xte ytr yte (some Strategy.regression) k ms
              (dictInsert row m (f yte (E.predict
                (fitted_model Strategy.regression k.model
                  (k.model_kws.getD default_model_kws) xtr ytr
                  k.sample_weight.1) xte) k.sample_weight.2
                (k.metric_kws.getD regression_default_metric_kws)),
               some (fitted_model Strategy.regression k.model
                 (k.model_kws.getD default_model_kws) xtr ytr
                 k.sample_weight.1),
               evs ++ ([Event.mkDefault Strategy.regression
                   (k.model_kws.getD default_model_kws)]
                 ++ [Event.fitCall xtr ytr k.sample_weight.1]
                 ++ [Event.registryLookup m, Event.predictCall xte])) from by
            simp [run_metrics, regression, hmodel, hm, hf, fitted_model,
              Model.fit]]
          exact heq
        | classification =>
          obtain ⟨row', mdl', evs', heq, hcf, hcm, hsome⟩ :=
            step_one (f yte (E.predict (fitted_model Strategy.classification
                k.model (k.model_kws.getD default_model_kws) xtr ytr
                k.sample_weight.1) xte) k.sample_weight.2
                (k.metric_kws.getD classification_default_metric_kws))
              (fitted_model Strategy.classification k.model
                (k.model_kws.getD default_model_kws) xtr ytr
                k.sample_weight.1)
              [Event.registryLookup m, Event.predictCall xte] rfl rfl
          refine ⟨row', mdl', evs', ?_, hcf, hcm, fun h => by simp at h,
            fun _ => hsome⟩
          rw [show run_metrics E xtr xte ytr yte
              (some Strategy.classification) k (m :: ms) (row, mdl, evs) =
            run_metrics E xtr xte ytr yte (some Strategy.classification) k ms
              (dictInsert row m (f yte (E.predict
                (fitted_model Strategy.classification k.model
                  (k.model_kws.getD default_model_kws) xtr ytr
                  k.sample_weight.1) xte) k.sample_weight.2
                (k.metric_kws.getD classification_default_metric_kws)),
               some (fitted_model Strategy.classification k.model
                 (k.model_kws.getD default_model_kws) xtr ytr
                 k.sample_weight.1),
               evs ++ ([Event.mkDefault Strategy.classification
                   (k.model_kws.getD default_model_kws)]
                 ++ [Event.fitCall xtr ytr k.sample_weight.1]
                 ++ [Event.registryLookup m, Event.predictCall xte])) from by
            simp [run_metrics, classification, hmodel, hm, hf, fitted_model,
              Model.fit]]
          exact heq

/-- C2 amended: when no estimator is supplied, every requested metric
independently instantiates a fresh default estimator and fits it once on
the training data — the evaluation call performs `len(metric)` fit calls
and creates `len(metric)` fresh default instances, each metric being
computed from the instance fitted in its own iteration (not from one
shared fitted estimator). -/
theorem c2_amended (E : Extern) (xs ys : NDArray × NDArray)
    (metric : List String) (k : Kwargs) (s : Strategy)
    (hmodel : k.model = none)
    (hsel : select_model ((check_xy_dims xs ys).2.2.1) = some s)
    (hok : ∀ m ∈ metric, m = "score" ∨ (E.registry m).isSome)
    (hne : metric ≠ []) :
    fitCountOf (run_task E xs ys metric k) = some metric.length ∧
      mkDefaultCountOf (run_task E xs ys metric k) = some metric.length := by
  obtain ⟨row', mdl', evs', heq, hf, hm', _, hcons⟩ :=
    run_metrics_counts E (check_xy_dims xs ys).1 (check_xy_dims xs ys).2.1
      (check_xy_dims xs ys).2.2.1 (check_xy_dims xs ys).2.2.2 s k hmodel
      metric [] none [] hok
  obtain ⟨mm, rfl⟩ := Option.isSome_iff_exists.mp (hcons hne)
  have hrun : run_task E xs ys metric k = Except.ok (row', mm, evs') := by
    simp only [run_task, hsel, heq]
  rw [hrun]
  simp only [fitCountOf, mkDefaultCountOf]
  constructor
  · rw [hf]
    simp [countFits]
  · rw [hm']
    simp [countMkDefaults]

/-- C2 witness: the amended theorem applied to the metric list
`[score, m1]` with a float64 target — two metrics, two fits, two fresh
default estimators. -/
theorem c2_amended_witness :
    fitCountOf (run_task externTwo (wit_x, wit_x) (wit_y, wit_y)
        ["score", "m1"] Kwargs.empty) = some 2 ∧
      mkDefaultCountOf (run_task externTwo (wit_x, wit_x) (wit_y, wit_y)
        ["score", "m1"] Kwargs.empty) = some 2 :=
  c2_amended externTwo (wit_x, wit_x) (wit_y, wit_y) ["score", "m1"]
    Kwargs.empty Strategy.regression rfl (by decide)
    (by
      intro m hm
      rcases List.mem_cons.mp hm with rfl | hm'
      · exact Or.inl rfl
      · rcases List.mem_singleton.mp hm' with rfl
        exact Or.inr rfl)
    (by decide)

/-! ## The sweep loop, unrolled -/

namespace Example1

/-- Unrolling the sweep loop: starting from any accumulator, folding
`sweep_step` over a list of sweep values appends exactly the per-value
tagged rows to the table and one log entry per value, and the final
`esn.w` is the last assigned scaled matrix. -/
theorem sweep_foldl_spec (C : Collab) (conn_w : Mat)
    (inodes onodes : List ℕ) (xtr xte ytr yte : Sig) :
    ∀ (as : List ℚ) (t : List SweepRow) (l : List IterLog) (e : Mat),
      List.foldl (sweep_step C conn_w inodes onodes xtr xte ytr yte)
          (t, l, e) as =
        (t ++ as.flatMap (sweep_rows_at C conn_w inodes onodes xtr xte ytr
            yte),
         l ++ as.map (fun a =>
           IterLog.mk a (smulMat a conn_w) (xtr, xte) (ytr, yte)),
         as.foldl (fun _ a => smulMat a conn_w) e)
  | [], t, l, e => by simp
  | a :: as, t, l, e => by
    rw [List.foldl_cons, List.foldl_cons]
    rw [show sweep_step C conn_w inodes onodes xtr xte ytr yte (t, l, e) a =
        (t ++ sweep_rows_at C conn_w inodes onodes xtr xte ytr yte a,
         l ++ [IterLog.mk a (smulMat a conn_w) (xtr, xte) (ytr, yte)],
         smulMat a conn_w) from by
      simp [sweep_step, sweep_rows_at]]
    rw [sweep_foldl_spec C conn_w inodes onodes xtr xte ytr yte as]
    simp

/-- The persisted table of one workflow run is the concatenation, in sweep
order, of the per-value row blocks. -/
theorem run_workflow_table (C : Collab) (w : Mat) (x y : Sig) (rw : Bool)
    (fn : OutId) :
    (run_workflow C w x y rw fn).table =
      ALPHAS.flatMap (sweep_rows_at C (base_w C w rw)
        (C.get_input_nodes (base_w C w rw))
        (C.get_output_nodes (base_w C w rw))
        (C.train_test_split x y).1 (C.train_test_split x y).2.1
        (C.train_test_split x y).2.2.1 (C.train_test_split x y).2.2.2) := by
  have h := sweep_foldl_spec C (base_w C w rw)
    (C.get_input_nodes (base_w C w rw)) (C.get_output_nodes (base_w C w rw))
    (C.train_test_split x y).1 (C.train_test_split x y).2.1
    (C.train_test_split x y).2.2.1 (C.train_test_split x y).2.2.2 ALPHAS
    [] [] (base_w C w rw)
  have h1 := congrArg (fun p =>
    (p : List SweepRow × List IterLog × Mat).1) h
  exact h1.trans (List.nil_append _)

/-- The iteration log of one workflow run, one entry per sweep value. -/
theorem run_workflow_iters (C : Collab) (w : Mat) (x y : Sig) (rw : Bool)
    (fn : OutId) :
    (run_workflow C w x y rw fn).iters =
      ALPHAS.map (fun a => IterLog.mk a (smulMat a (base_w C w rw))
        ((C.train_test_split x y).1, (C.train_test_split x y).2.1)
        ((C.train_test_split x y).2.2.1,
         (C.train_test_split x y).2.2.2)) := by
  have h := sweep_foldl_spec C (base_w C w rw)
    (C.get_input_nodes (base_w C w rw)) (C.get_output_nodes (base_w C w rw))
    (C.train_test_split x y).1 (C.train_test_split x y).2.1
    (C.train_test_split x y).2.2.1 (C.train_test_split x y).2.2.2 ALPHAS
    [] [] (base_w C w rw)
  have h1 := congrArg (fun p =>
    (p : List SweepRow × List IterLog × Mat).2.1) h
  exact h1.trans (List.nil_append _)

/-- The filename a workflow run persists under is the one it was given. -/
theorem run_workflow_filename (C : Collab) (w : Mat) (x y : Sig) (rw : Bool)
    (fn : OutId) : (run_workflow C w x y rw fn).filename = fn := rfl

/-! ## C7 — table shape and sweep-value column -/

/-- A concrete collaborator bundle whose readout reports two modules
(module breakdown enabled with module count 2). -/
def collabTwo : Collab :=
  Collab.mk id id (fun _ => []) (fun _ => []) (fun w _ _ _ => w)
    (fun x y => (x, x, y, y))
    (fun _ _ => [ModuleRow.mk "ma" 1 0, ModuleRow.mk "mb" 1 0])

/-- C7 counterexample: with module breakdown enabled (here two modules per
evaluation, as the source always requests via `readout_modules`), the
sweep-value column of the persisted table is not equal to the sweep-value
sequence — each sweep value appears once per module row, so the column has
80 entries against the 40 values of `ALPHAS`. -/
theorem c7_counterexample :
    ¬ ((run_workflow collabTwo [[1]] [] [] false
          (OutId.empiricalId "t")).table.map SweepRow.alpha = ALPHAS) := by
  intro h
  have h1 := congrArg List.length h
  rw [List.length_map, run_workflow_table, List.length_flatMap] at h1
  have hlen : ∀ a : ℚ, (sweep_rows_at collabTwo
      (base_w collabTwo [[1]] false)
      (collabTwo.get_input_nodes (base_w collabTwo [[1]] false))
      (collabTwo.get_output_nodes (base_w collabTwo [[1]] false))
      (collabTwo.train_test_split [] []).1
      (collabTwo.train_test_split [] []).2.1
      (collabTwo.train_test_split [] []).2.2.1
      (collabTwo.train_test_split [] []).2.2.2 a).length = 2 :=
    fun _ => rfl
  simp only [Function.comp_def, hlen] at h1
  rw [List.map_const', List.sum_replicate, smul_eq_mul] at h1
  rw [show ALPHAS.length = 40 from rfl] at h1
  omega

/-- C7 amended: when module breakdown yields `k` rows per evaluation, the
persisted table has `len(ALPHAS) * k` rows, and its sweep-value column,
read in row order, is the sweep-value sequence in its given order with
each value repeated once per module row and rounded to three decimals —
a rounding that leaves every value of `ALPHAS` unchanged.  There is no
reordering and no deduplication. -/
theorem c7_amended (C : Collab) (w : Mat) (x y : Sig) (rw : Bool)
    (fn : OutId) (k : ℕ)
    (hk : ∀ rs ys, (C.readout_run_task rs ys).length = k) :
    (run_workflow C w x y rw fn).table.length = ALPHAS.length * k ∧
    (run_workflow C w x y rw fn).table.map SweepRow.alpha =
      ALPHAS.flatMap (fun a => List.replicate k (np_round 3 a)) ∧
    ALPHAS.map (np_round 3) = ALPHAS ∧
    ALPHAS.length = 40 := by
  have htab := run_workflow_table C w x y rw fn
  have hlen : ∀ a : ℚ, (sweep_rows_at C (base_w C w rw)
      (C.get_input_nodes (base_w C w rw))
      (C.get_output_nodes (base_w C w rw))
      (C.train_test_split x y).1 (C.train_test_split x y).2.1
      (C.train_test_split x y).2.2.1 (C.train_test_split x y).2.2.2
      a).length = k := by
    intro a
    simp [sweep_rows_at, hk]
  have hcol : ∀ a : ℚ, (sweep_rows_at C (base_w C w rw)
      (C.get_input_nodes (base_w C w rw))
      (C.get_output_nodes (base_w C w rw))
      (C.train_test_split x y).1 (C.train_test_split x y).2.1
      (C.train_test_split x y).2.2.1 (C.train_test_split x y).2.2.2
      a).map SweepRow.alpha = List.replicate k (np_round 3 a) := by
    intro a
    rw [sweep_rows_at, List.map_map]
    rw [show (SweepRow.alpha ∘ fun r : ModuleRow =>
        SweepRow.mk (np_round 3 a) r.module r.n_nodes r.corrcoef) =
      (fun _ => np_round 3 a) from rfl]
    rw [List.map_const', hk]
  refine ⟨?_, ?_, by decide, rfl⟩
  · rw [htab, List.length_flatMap]
    simp only [Function.comp_def, hlen]
    rw [List.map_const', List.sum_replicate, smul_eq_mul]
  · rw [htab, List.map_flatMap]
    simp only [hcol]

/-- C7 witness: the amended theorem at the concrete two-module
collaborator — 80 rows, and the alpha column is `ALPHAS` with every value
doubled in place. -/
theorem c7_amended_witness :
    (run_workflow collabTwo [[1]] [] [] false
        (OutId.empiricalId "t")).table.length = ALPHAS.length * 2 ∧
    (run_workflow collabTwo [[1]] [] [] false
        (OutId.empiricalId "t")).table.map SweepRow.alpha =
      ALPHAS.flatMap (fun a => List.replicate 2 (np_round 3 a)) ∧
    ALPHAS.map (np_round 3) = ALPHAS ∧
    ALPHAS.length = 40 :=
  c7_amended collabTwo [[1]] [] [] false (OutId.empiricalId "t") 2
    (fun _ _ => rfl)

/-! ## C8 — the train/test split is computed once, before the sweep -/

/-- C8: within one workflow run the train/test partition handed to every
sweep iteration is the same value — the single result of
`train_test_split`, computed before the loop: the per-iteration partition
log is constant across all 40 sweep values. -/
theorem c8_split_once (C : Collab) (w : Mat) (x y : Sig) (rw : Bool)
    (fn : OutId) :
    (run_workflow C w x y rw fn).iters.map
        (fun l => (l.x_part, l.y_part)) =
      List.replicate ALPHAS.length
        (((C.train_test_split x y).1, (C.train_test_split x y).2.1),
         ((C.train_test_split x y).2.2.1,
          (C.train_test_split x y).2.2.2)) := by
  rw [run_workflow_iters, List.map_map]
  rw [show ((fun l => (IterLog.x_part l, IterLog.y_part l)) ∘ fun a =>
      IterLog.mk a (smulMat a (base_w C w rw))
        ((C.train_test_split x y).1, (C.train_test_split x y).2.1)
        ((C.train_test_split x y).2.2.1, (C.train_test_split x y).2.2.2)) =
    (fun _ => (((C.train_test_split x y).1, (C.train_test_split x y).2.1),
       ((C.train_test_split x y).2.2.1,
        (C.train_test_split x y).2.2.2))) from rfl]
  rw [List.map_const']

/-! ## C9 — ensemble artifact count, identifiers and ordering -/

/-- C9: an ensemble run over `n` nulls produces exactly `n + 1` persisted
tables whose output identifiers are pairwise distinct, and its event
sequence starts with the synchronous, non-rewired empirical run under the
fixed identifier `{connectome}_empirical`, followed by the submissions of
the `n` rewired null jobs `{connectome}_null_{i}` in index order. -/
theorem c9_ensemble (C : Collab) (n : ℕ) (w : Mat) (x y : Sig)
    (c : String) :
    ((run_experiment C n w x y c).2).length = n + 1 ∧
    (((run_experiment C n w x y c).2).map WorkflowOut.filename).Nodup ∧
    (run_experiment C n w x y c).1 =
      ExpEvent.runSync false (OutId.empiricalId c) ::
        (List.range n).map (fun i => ExpEvent.submit true (OutId.nullId c i))
    := by
  refine ⟨?_, ?_, rfl⟩
  · simp [run_experiment]
  · have hmap : ((run_experiment C n w x y c).2).map WorkflowOut.filename =
        OutId.empiricalId c ::
          (List.range n).map (fun i => OutId.nullId c i) := by
      simp [run_experiment, run_workflow_filename, List.map_map,
        Function.comp]
    rw [hmap, List.nodup_cons]
    constructor
    · simp
    · refine List.Nodup.map ?_ (List.nodup_range n)
      intro i j hij
      injection hij

/-! ## C10 — no compounding of the sweep scaling -/

/-- C10: across the sweep loop the normalized base weight matrix is never
modified — after the loop `conn.w` still equals its pre-loop value, and
the weights handed to the simulator at sweep value `alpha` are exactly
`alpha` times that fixed base matrix (a fresh product each iteration, so
the scaling applied at one sweep value never compounds into the next). -/
theorem c10_no_compounding (C : Collab) (w : Mat) (x y : Sig) (rw : Bool)
    (fn : OutId) :
    (run_workflow C w x y rw fn).iters.map (fun l => (l.alpha, l.sim_w)) =
      ALPHAS.map (fun a => (a, smulMat a (base_w C w rw))) ∧
    (run_workflow C w x y rw fn).conn_w_final = base_w C w rw := by
  constructor
  · rw [run_workflow_iters, List.map_map]
    rfl
  · rfl

end Example1

end Conn2Res
